import Mathlib

/-!
Shallow embedding of the data-mutation surface of `src/app.py` (a Flask +
SQLAlchemy storefront): the relational schema (lines 44-92) and the
cart / checkout / registration request handlers.

Modelling conventions:
* Each SQLAlchemy table is a `List` of row structures inside `DBState`;
  auto-increment primary keys are modelled with explicit `next…Id` counters.
* `db.Float` price columns are modelled as `Rat` (the prices in the claims,
  10.00 / 5.00 / 25.00, are exact in binary floating point, so no rounding
  behaviour is lost).
* Each request handler is a pure function `… → DBState → Except AppError DBState`.
  `Except.ok s'` is the state after the handler's `db.session.commit()`;
  `Except.error e` means the request ended without committing (flash+redirect
  early return, 403/404 response, or an exception reaching the
  `errorhandler(500)` at lines 253-257, which calls `db.session.rollback()`),
  so the database state is the unchanged input state.
* `date_ordered` (wall-clock default) and the Flask session machinery are out
  of scope; handlers take the authenticated user id as a parameter, exactly
  as `current_user.id` is used in the source.
-/

namespace Site3

/-- Row of table `user` (src/app.py lines 44-50). -/
structure User where
  id : Nat
  username : String
  email : String
  password_hash : String
deriving DecidableEq, Repr

/-- Row of table `category` (src/app.py lines 52-55). -/
structure Category where
  id : Nat
  name : String
deriving DecidableEq, Repr

/-- Row of table `product` (src/app.py lines 57-65). `price` is `db.Float`,
modelled as `Rat`. -/
structure Product where
  id : Nat
  name : String
  description : String
  price : Rat
  stock : Int
  image_url : String
  category_id : Nat
deriving DecidableEq, Repr

/-- Row of table `cart_item` (src/app.py lines 67-71). `quantity` is a
(signed) SQL INTEGER: nothing in the source constrains it to be positive. -/
structure CartItem where
  id : Nat
  user_id : Nat
  product_id : Nat
  quantity : Int
deriving DecidableEq, Repr

/-- Row of table `order` (src/app.py lines 73-79); `status` has column
default `'pending'`; `date_ordered` (wall-clock default) is omitted. -/
structure Order where
  id : Nat
  user_id : Nat
  total_amount : Rat
  status : String
deriving DecidableEq, Repr

/-- Row of table `order_item` (src/app.py lines 81-86). In the committed
table `order_id` is `NOT NULL` (`nullable=False`, line 83). -/
structure OrderItem where
  id : Nat
  order_id : Nat
  product_id : Nat
  quantity : Int
  price : Rat
deriving DecidableEq, Repr

/-- An `OrderItem` object sitting in the SQLAlchemy session before the flush:
its `order_id` attribute holds whatever value the handler assigned, which may
be `None` (modelled `none`) because the referenced `Order`'s primary key is
only generated at flush time. -/
structure PendingOrderItem where
  order_id : Option Nat
  product_id : Nat
  quantity : Int
  price : Rat
deriving DecidableEq, Repr

/-- Row of table `feedback` (src/app.py lines 88-92). -/
structure Feedback where
  id : Nat
  name : String
  email : String
  message : String
deriving DecidableEq, Repr

/-- The whole database. -/
structure DBState where
  users : List User
  categories : List Category
  products : List Product
  cartItems : List CartItem
  orders : List Order
  orderItems : List OrderItem
  feedbacks : List Feedback
  nextUserId : Nat
  nextCartItemId : Nat
  nextOrderId : Nat
  nextOrderItemId : Nat
deriving DecidableEq, Repr

/-- How a request ends when it does not commit. -/
inductive AppError where
  /-- `flash('Your cart is empty!', 'error')` + redirect (src/app.py 160-162);
  the spec calls this EmptyCartError. -/
  | emptyCart
  /-- `jsonify({'error': 'Unauthorized'}), 403` (src/app.py 142-143);
  the spec calls this Forbidden. -/
  | unauthorized
  /-- `get_or_404` miss (src/app.py 141). -/
  | notFound
  /-- `flash('Username already exists')` + redirect (src/app.py 210-212);
  the spec calls this ConflictError. -/
  | conflict
  /-- Python `int(...)` raised ValueError on the form value; unhandled, so the
  request dies with HTTP 500 and the session is rolled back (src/app.py 253-257). -/
  | valueError
  /-- SQLAlchemy IntegrityError raised by `db.session.commit()` (a NOT NULL or
  UNIQUE constraint); unhandled, so HTTP 500 + `db.session.rollback()`. -/
  | integrityError
deriving DecidableEq, Repr

/-- The table state a request leaves behind: the committed state on success,
the unchanged input state otherwise (early return before any commit, or
rollback by the 500 handler). -/
def resultState (r : Except AppError DBState) (s : DBState) : DBState :=
  match r with
  | .ok s' => s'
  | .error _ => s

/-- Model of Python `int(str)` on a decimal string: optional surrounding
whitespace, optional single sign, then one or more ASCII digits. `none` where
`int` raises ValueError. (Digit-group underscores accepted by CPython are not
modelled; no claim involves them.) -/
def decDigits (cs : List Char) : Option Nat :=
  if cs.isEmpty then none
  else cs.foldl
    (fun acc c =>
      match acc with
      | none => none
      | some n => if c.isDigit then some (n * 10 + (c.toNat - 48)) else none)
    (some 0)

def isSpaceChar (c : Char) : Bool :=
  c == ' ' || c == '\t' || c == '\n' || c == '\r'

def pythonInt (s : String) : Option Int :=
  let cs := ((s.data.dropWhile isSpaceChar).reverse.dropWhile isSpaceChar).reverse
  match cs with
  | '-' :: rest => (decDigits rest).map (fun n => -(n : Int))
  | '+' :: rest => (decDigits rest).map (fun n => (n : Int))
  | rest => (decDigits rest).map (fun n => (n : Int))

/-- `int(request.form.get('quantity', d))`: a missing field yields the integer
default `d`; a present field is the string passed through `int`. -/
def parseFormQuantity (d : Int) (form : Option String) : Option Int :=
  match form with
  | none => some d
  | some str => pythonInt str

/-- `item.product.price`: the lazy many-to-one load of the cart item's
product row. (Under the foreign-key constraint the product always exists;
a dangling id is given price 0, a case no theorem relies on.) -/
def productPrice (s : DBState) (pid : Nat) : Rat :=
  match s.products.find? (fun p => p.id == pid) with
  | some p => p.price
  | none => 0

/-- `sum(item.product.price * item.quantity for item in cart_items)`
(src/app.py lines 119 and 164). -/
def cartTotal (s : DBState) (cart_items : List CartItem) : Rat :=
  (cart_items.map (fun item => productPrice s item.product_id * (item.quantity : Rat))).sum

/-- The body of `add_to_cart` after the quantity has been coerced
(src/app.py lines 126-134): look up the caller's CartItem for this product;
increment its quantity if present, otherwise insert a new row; commit.
Neither branch can violate a constraint, so the commit succeeds. -/
def addToCartCore (userId productId : Nat) (quantity : Int) (s : DBState) : DBState :=
  match s.cartItems.find? (fun it => it.user_id == userId && it.product_id == productId) with
  | some cart_item =>
      { s with cartItems := s.cartItems.map (fun x =>
          if x.id == cart_item.id then { x with quantity := x.quantity + quantity } else x) }
  | none =>
      { s with
        cartItems := s.cartItems ++
          [{ id := s.nextCartItemId, user_id := userId, product_id := productId,
             quantity := quantity }],
        nextCartItemId := s.nextCartItemId + 1 }

/-- `add_to_cart` (src/app.py lines 122-136). Line 125 runs
`int(request.form.get('quantity', 1))` before touching the database: a missing
field defaults to 1, a malformed field raises ValueError (HTTP 500, nothing
written). A value that parses — positive or not — is used as-is. -/
def add_to_cart (userId productId : Nat) (form_quantity : Option String)
    (s : DBState) : Except AppError DBState :=
  match parseFormQuantity 1 form_quantity with
  | none => .error .valueError
  | some quantity => .ok (addToCartCore userId productId quantity s)

/-- `update_cart` (src/app.py lines 138-153): `get_or_404` on the item id,
then the explicit ownership check (line 142) — before the form value is even
parsed — then `int(request.form.get('quantity', 0))`; a positive quantity is
written through, otherwise the row is deleted. -/
def update_cart (userId itemId : Nat) (form_quantity : Option String)
    (s : DBState) : Except AppError DBState :=
  match s.cartItems.find? (fun x => x.id == itemId) with
  | none => .error .notFound
  | some cart_item =>
    if cart_item.user_id != userId then
      .error .unauthorized
    else
      match parseFormQuantity 0 form_quantity with
      | none => .error .valueError
      | some quantity =>
        if quantity > 0 then
          .ok { s with cartItems := s.cartItems.map (fun x =>
                  if x.id == cart_item.id then { x with quantity := quantity } else x) }
        else
          .ok { s with cartItems := s.cartItems.filter (fun x => x.id != cart_item.id) }

/-- The flush performed by `db.session.commit()` for the pending OrderItems:
assign auto-increment primary keys and insert the rows. The schema declares
`order_item.order_id` NOT NULL (src/app.py line 83), so a pending item whose
`order_id` attribute is `None` aborts the flush with IntegrityError. -/
def flushPending : Nat → List PendingOrderItem → Option (List OrderItem)
  | _, [] => some []
  | n, oi :: rest =>
    match oi.order_id with
    | none => none
    | some ordId =>
      (flushPending (n + 1) rest).map
        (fun tl => { id := n, order_id := ordId, product_id := oi.product_id,
                     quantity := oi.quantity, price := oi.price } :: tl)

/-- The committed state of a successful checkout: the new `Order` row (status
column default `'pending'`), the flushed `OrderItem` rows, and the deletion of
every consumed cart row — all in the one commit at src/app.py line 179. -/
def checkoutCommit (userId : Nat) (total_amount : Rat) (committed : List OrderItem)
    (s : DBState) : DBState :=
  { s with
    orders := s.orders ++ [{ id := s.nextOrderId, user_id := userId,
                             total_amount := total_amount, status := "pending" }],
    orderItems := s.orderItems ++ committed,
    cartItems := s.cartItems.filter (fun it => it.user_id != userId),
    nextOrderId := s.nextOrderId + 1,
    nextOrderItemId := s.nextOrderItemId + committed.length }

/-- The `OrderItem(order_id=order.id, product_id=item.product_id,
quantity=item.quantity, price=item.product.price)` objects built in the loop
at src/app.py lines 169-177. `db.session.add(order)` (line 167) does not
flush, so when each of these is constructed the order's primary key has not
been generated yet and `order.id` reads as `None` (nothing between the add and
the commit issues a query that would autoflush: every `item.product` was
already loaded by the total computation at line 164, and `db.session.delete`
does not flush). Hence `order_id := none` on every element. -/
def pendingOrderItems (s : DBState) (cart_items : List CartItem) : List PendingOrderItem :=
  cart_items.map (fun item =>
    { order_id := none,
      product_id := item.product_id,
      quantity := item.quantity,
      price := productPrice s item.product_id })

/-- `checkout`, POST branch (src/app.py lines 158-181). The single
`db.session.commit()` at line 179 flushes the pending order, order items and
cart deletions as one unit; because every pending `OrderItem` carries
`order_id = None` (see `pendingOrderItems`), the NOT NULL constraint on
`order_item.order_id` rejects the rows, the commit raises IntegrityError, and
the 500 handler (src/app.py lines 253-257) rolls the whole session back. -/
def checkout (userId : Nat) (s : DBState) : Except AppError DBState :=
  let cart_items := s.cartItems.filter (fun it => it.user_id == userId)
  if cart_items.isEmpty then
    .error .emptyCart
  else
    let total_amount := cartTotal s cart_items
    let order_items := pendingOrderItems s cart_items
    match flushPending s.nextOrderItemId order_items with
    | none => .error .integrityError
    | some committed => .ok (checkoutCommit userId total_amount committed s)

/-- `generate_password_hash` (werkzeug), modelled abstractly as a tagging
function; no claim depends on the hash value. -/
def generate_password_hash (password : String) : String :=
  "pbkdf2:sha256$" ++ password

/-- `register`, POST branch (src/app.py lines 205-218): the handler checks the
username itself and bails out before creating anything; otherwise the insert
commits, where the UNIQUE constraints on `user.username` / `user.email`
(lines 46-47) can still reject the row (IntegrityError, 500 + rollback). -/
def register (username email password : String) (s : DBState) :
    Except AppError DBState :=
  if s.users.any (fun u => u.username == username) then
    .error .conflict
  else if s.users.any (fun u => u.username == username || u.email == email) then
    .error .integrityError
  else
    .ok { s with
      users := s.users ++
        [{ id := s.nextUserId, username := username, email := email,
           password_hash := generate_password_hash password }],
      nextUserId := s.nextUserId + 1 }

/-- Modelled from the spec: no operation in src/app.py ever changes a
Product's price (products are only read by the handlers), so the spec's
"if product price changes after checkout" is modelled as a direct update of
the product table row, every other table untouched. -/
def setProductPrice (productId : Nat) (newPrice : Rat) (s : DBState) : DBState :=
  { s with products := s.products.map (fun p =>
      if p.id == productId then { p with price := newPrice } else p) }

/-! ### Concrete states used by witnesses and counterexamples -/

/-- Empty database. -/
def emptyDB : DBState :=
  { users := [], categories := [], products := [], cartItems := [],
    orders := [], orderItems := [], feedbacks := [],
    nextUserId := 1, nextCartItemId := 1, nextOrderId := 1, nextOrderItemId := 1 }

/-- The C1 scenario: user 1 with cart lines (product 1, qty 2, price 10.00)
and (product 2, qty 1, price 5.00). -/
def c1State : DBState :=
  { emptyDB with
    users := [{ id := 1, username := "alice", email := "a@x.com", password_hash := "h" }],
    categories := [{ id := 1, name := "default" }],
    products := [{ id := 1, name := "productA", description := "", price := 10,
                   stock := 1, image_url := "", category_id := 1 },
                 { id := 2, name := "productB", description := "", price := 5,
                   stock := 1, image_url := "", category_id := 1 }],
    cartItems := [{ id := 1, user_id := 1, product_id := 1, quantity := 2 },
                  { id := 2, user_id := 1, product_id := 2, quantity := 1 }],
    nextUserId := 2, nextCartItemId := 3 }

/-- A state whose only cart row belongs to user 2, so user 1's cart is empty. -/
def c4State : DBState :=
  { emptyDB with
    cartItems := [{ id := 1, user_id := 2, product_id := 1, quantity := 1 }],
    nextCartItemId := 2 }

/-- A state whose only cart row (item 5) belongs to user 7. -/
def c6State : DBState :=
  { emptyDB with
    cartItems := [{ id := 5, user_id := 7, product_id := 3, quantity := 4 }],
    nextCartItemId := 6 }

/-- A state with cart rows and an order for each of users 1 and 2. -/
def c10State : DBState :=
  { emptyDB with
    cartItems := [{ id := 1, user_id := 1, product_id := 1, quantity := 1 },
                  { id := 2, user_id := 2, product_id := 1, quantity := 3 }],
    orders := [{ id := 1, user_id := 2, total_amount := 7, status := "pending" }],
    nextCartItemId := 3, nextOrderId := 2 }

/-- A state where user 1 owns cart items 1 and 2. -/
def c7State : DBState :=
  { emptyDB with
    cartItems := [{ id := 1, user_id := 1, product_id := 2, quantity := 9 },
                  { id := 2, user_id := 1, product_id := 3, quantity := 1 }],
    nextCartItemId := 3 }

/-- A state with one registered user named alice. -/
def c9State : DBState :=
  { emptyDB with
    users := [{ id := 1, username := "alice", email := "a@x.com",
                password_hash := generate_password_hash "pw" }],
    nextUserId := 2 }

/-! ### Helper lemmas -/

/-- Every run of `checkout` ends in an error: an empty cart returns early, and
a non-empty cart builds pending OrderItems whose `order_id` is `None`, which
the NOT NULL constraint rejects at commit. -/
theorem checkout_never_commits (u : Nat) (s : DBState) :
    checkout u s = .error .emptyCart ∨ checkout u s = .error .integrityError := by
  unfold checkout
  cases h : s.cartItems.filter (fun it => it.user_id == u) with
  | nil => left; simp [h]
  | cons a t => right; simp [h, pendingOrderItems, flushPending]

/-- Mapping a function over a list and then filtering with a test that fails
on every image yields the empty list. -/
theorem filter_map_eq_nil {α β : Type} (f : α → β) (pr : β → Bool) (l : List α)
    (h : ∀ x ∈ l, pr (f x) = false) : (l.map f).filter pr = [] := by
  induction l with
  | nil => rfl
  | cons a t ih =>
      rw [List.map_cons, List.filter_cons, h a (List.mem_cons_self a t),
        if_neg (by decide)]
      exact ih fun x hx => h x (List.mem_cons_of_mem a hx)

/-- The quantity bump applied by a second `add_to_cart` call never changes
which (user, product) pair a row matches. -/
theorem bump_preserves_pair (u p rid : Nat) (q : Int) (x : CartItem) :
    ((if x.id == rid then ({ x with quantity := x.quantity + q } : CartItem)
        else x).user_id == u &&
     (if x.id == rid then ({ x with quantity := x.quantity + q } : CartItem)
        else x).product_id == p) =
    (x.user_id == u && x.product_id == p) := by
  by_cases h : (x.id == rid) = true
  · rw [if_pos h]
  · rw [if_neg h]

/-! ### Claims -/

/-- C1: the spec claims that for a user whose cart is
[(product 1, qty 2, price 10.00), (product 2, qty 1, price 5.00)], checkout
produces one pending Order with total 25.00, one OrderItem per line, and an
empty cart. The code computes the total 25 but constructs every OrderItem
with `order_id=order.id` before the order's key exists, so the commit fails
with IntegrityError and the rollback leaves the database exactly as it was:
no Order, no OrderItems, the cart intact. -/
theorem c1_checkout_scenario_fails :
    cartTotal c1State (c1State.cartItems.filter (fun it => it.user_id == 1)) = 25 ∧
    checkout 1 c1State = .error .integrityError ∧
    resultState (checkout 1 c1State) c1State = c1State := by
  refine ⟨?_, rfl, rfl⟩
  have h12 : ((1 : Nat) == 2) = false := rfl
  norm_num [cartTotal, c1State, emptyDB, productPrice, List.find?, h12]

/-- C2: checkout persists its writes atomically: every run either ends in an
error with the database exactly as it was (the single commit never happened,
or the 500 handler rolled it back), or commits the new Order row, its
OrderItems (one per consumed cart line), and the deletion of all of the
user's cart rows together. (With the `order.id` slip of C1 the error branch
is in fact the one always taken; no partial state is reachable either way.) -/
theorem checkout_atomic (u : Nat) (s : DBState) :
    (∃ e, checkout u s = .error e ∧ resultState (checkout u s) s = s) ∨
    (∃ s' total committed, checkout u s = .ok s' ∧
      s'.orders = s.orders ++ [{ id := s.nextOrderId, user_id := u,
                                 total_amount := total, status := "pending" }] ∧
      s'.orderItems = s.orderItems ++ committed ∧
      List.length committed =
        List.length (s.cartItems.filter (fun it => it.user_id == u)) ∧
      s'.cartItems = s.cartItems.filter (fun it => it.user_id != u)) := by
  rcases checkout_never_commits u s with h | h
  · exact Or.inl ⟨_, h, by rw [h]; rfl⟩
  · exact Or.inl ⟨_, h, by rw [h]; rfl⟩

/-- C4: checkout on an empty cart fails with the empty-cart error, creates no
Order row, and leaves the whole database unchanged. -/
theorem checkout_empty_cart (u : Nat) (s : DBState)
    (h : s.cartItems.filter (fun it => it.user_id == u) = []) :
    checkout u s = .error .emptyCart ∧
    (resultState (checkout u s) s).orders = s.orders ∧
    resultState (checkout u s) s = s := by
  have h1 : checkout u s = .error .emptyCart := by
    unfold checkout
    simp [h]
  exact ⟨h1, by rw [h1]; rfl, by rw [h1]; rfl⟩

theorem checkout_empty_cart_witness :
    c4State.cartItems.filter (fun it => it.user_id == 1) = [] ∧
    (checkout 1 c4State = .error .emptyCart ∧
     (resultState (checkout 1 c4State) c4State).orders = c4State.orders ∧
     resultState (checkout 1 c4State) c4State = c4State) :=
  ⟨by decide, checkout_empty_cart 1 c4State (by decide)⟩

/-- C5: OrderItem prices are snapshots: a later change of a product's price
rewrites only the product table — the order and order-item tables are
untouched, so every stored OrderItem price is unchanged — and the pending
OrderItems built by checkout take their price from the product table as it is
at checkout time. -/
theorem orderitem_price_snapshot (pid : Nat) (pr : Rat) (s : DBState)
    (l : List CartItem) :
    (setProductPrice pid pr s).orderItems = s.orderItems ∧
    (setProductPrice pid pr s).orders = s.orders ∧
    ∀ oi ∈ pendingOrderItems s l, oi.price = productPrice s oi.product_id := by
  refine ⟨rfl, rfl, ?_⟩
  intro oi hoi
  simp only [pendingOrderItems, List.mem_map] at hoi
  obtain ⟨item, _, rfl⟩ := hoi
  rfl

/-- C3: starting with no cart row for (u, p), adding quantity q1 and then
quantity q2 for the same product leaves exactly one (u, p) cart row, with
quantity q1 + q2: the first call inserts the row, the second finds it and
increments instead of inserting a duplicate. -/
theorem add_twice_merges (u p : Nat) (q1 q2 : Int) (s : DBState)
    (hnone : s.cartItems.find?
        (fun it => it.user_id == u && it.product_id == p) = none)
    (hq1 : 0 < q1) (hq2 : 0 < q2) :
    (addToCartCore u p q2 (addToCartCore u p q1 s)).cartItems.filter
        (fun it => it.user_id == u && it.product_id == p) =
      [{ id := s.nextCartItemId, user_id := u, product_id := p,
         quantity := q1 + q2 }] := by
  have hall : ∀ x ∈ s.cartItems, (x.user_id == u && x.product_id == p) = false := by
    intro x hx
    have := List.find?_eq_none.mp hnone x hx
    simpa using this
  have e1 : addToCartCore u p q1 s =
      { s with
        cartItems := s.cartItems ++
          [{ id := s.nextCartItemId, user_id := u, product_id := p, quantity := q1 }],
        nextCartItemId := s.nextCartItemId + 1 } := by
    unfold addToCartCore
    rw [hnone]
  rw [e1]
  have hfind2 : (s.cartItems ++
      [({ id := s.nextCartItemId, user_id := u, product_id := p,
          quantity := q1 } : CartItem)]).find?
        (fun it => it.user_id == u && it.product_id == p) =
      some { id := s.nextCartItemId, user_id := u, product_id := p, quantity := q1 } := by
    rw [List.find?_append, hnone]
    simp
  have e2 : (addToCartCore u p q2
      { s with
        cartItems := s.cartItems ++
          [{ id := s.nextCartItemId, user_id := u, product_id := p, quantity := q1 }],
        nextCartItemId := s.nextCartItemId + 1 }).cartItems =
      List.map
        (fun x : CartItem => if x.id == s.nextCartItemId
          then { x with quantity := x.quantity + q2 } else x)
        (s.cartItems ++
          [{ id := s.nextCartItemId, user_id := u, product_id := p, quantity := q1 }]) := by
    unfold addToCartCore
    dsimp only
    rw [hfind2]
  rw [e2, List.map_append, List.filter_append,
    filter_map_eq_nil _ _ s.cartItems
      (fun x hx => (bump_preserves_pair u p s.nextCartItemId q2 x).trans (hall x hx))]
  simp

theorem add_twice_merges_witness :
    emptyDB.cartItems.find? (fun it => it.user_id == 1 && it.product_id == 2) = none ∧
    (0 : Int) < 2 ∧ (0 : Int) < 3 ∧
    (addToCartCore 1 2 3 (addToCartCore 1 2 2 emptyDB)).cartItems.filter
        (fun it => it.user_id == 1 && it.product_id == 2) =
      [{ id := 1, user_id := 1, product_id := 2, quantity := 5 }] :=
  ⟨by decide, by decide, by decide,
   add_twice_merges 1 2 2 3 emptyDB (by decide) (by decide) (by decide)⟩

/-- C7: for the owner of a cart item, a submitted quantity that parses to a
positive integer overwrites that row's quantity with exactly that value —
the row is still there, every row with a different id is untouched, and no
row is added or removed — while a quantity that parses to zero or a negative
integer deletes the row entirely (every other row survives). -/
theorem update_cart_owner (u itemId : Nat) (s : DBState) (it : CartItem)
    (str1 str2 : String) (q1 q2 : Int)
    (hfind : s.cartItems.find? (fun x => x.id == itemId) = some it)
    (hown : it.user_id = u)
    (hp1 : pythonInt str1 = some q1) (hq1 : 0 < q1)
    (hp2 : pythonInt str2 = some q2) (hq2 : q2 ≤ 0) :
    (∃ s1, update_cart u itemId (some str1) s = .ok s1 ∧
      (∃ x ∈ s1.cartItems, x.id = itemId) ∧
      (∀ x ∈ s1.cartItems, x.id = itemId → x.quantity = q1) ∧
      (∀ x ∈ s.cartItems, x.id ≠ itemId → x ∈ s1.cartItems) ∧
      s1.cartItems.length = s.cartItems.length) ∧
    (∃ s2, update_cart u itemId (some str2) s = .ok s2 ∧
      (∀ x ∈ s2.cartItems, x.id ≠ itemId) ∧
      (∀ x ∈ s.cartItems, x.id ≠ itemId → x ∈ s2.cartItems)) := by
  have hid : it.id = itemId := by
    have := List.find?_some hfind
    simpa using this
  have hmem : it ∈ s.cartItems := List.mem_of_find?_eq_some hfind
  have e1 : update_cart u itemId (some str1) s =
      .ok { s with cartItems := s.cartItems.map (fun x =>
              if x.id == it.id then { x with quantity := q1 } else x) } := by
    unfold update_cart
    rw [hfind]
    simp [parseFormQuantity, hown, hp1, hq1]
  have e2 : update_cart u itemId (some str2) s =
      .ok { s with cartItems := s.cartItems.filter (fun x => x.id != it.id) } := by
    unfold update_cart
    rw [hfind]
    have hq2n : ¬ (q2 > 0) := not_lt.mpr hq2
    simp [parseFormQuantity, hown, hp2, hq2n]
  constructor
  · refine ⟨_, e1, ?_, ?_, ?_, ?_⟩
    · refine ⟨{ it with quantity := q1 }, ?_, hid⟩
      have hg : (fun x => if x.id == it.id then { x with quantity := q1 } else x) it =
          { it with quantity := q1 } := by simp
      exact hg ▸ List.mem_map_of_mem _ hmem
    · intro x hx hxid
      obtain ⟨y, hy, rfl⟩ := List.mem_map.mp hx
      cases h : (y.id == it.id) with
      | true => simp [h]
      | false =>
          exfalso
          rw [if_neg (by simp [h])] at hxid
          simp [hxid, hid] at h
    · intro x hx hxid
      have hcond : ¬ ((x.id == it.id) = true) := by simp [hid, hxid]
      have hgx : (fun y => if y.id == it.id then { y with quantity := q1 } else y) x = x :=
        if_neg hcond
      exact hgx ▸ List.mem_map_of_mem _ hx
    · exact List.length_map _ _
  · refine ⟨_, e2, ?_, ?_⟩
    · intro x hx
      have hcond := (List.mem_filter.mp hx).2
      have : x.id ≠ it.id := by simpa using hcond
      rw [hid] at this
      exact this
    · intro x hx hxid
      refine List.mem_filter.mpr ⟨hx, ?_⟩
      simp [hid, hxid]

theorem update_cart_owner_witness :
    c7State.cartItems.find? (fun x => x.id == 1) =
      some { id := 1, user_id := 1, product_id := 2, quantity := 9 } ∧
    ({ id := 1, user_id := 1, product_id := 2, quantity := 9 } : CartItem).user_id = 1 ∧
    pythonInt "3" = some 3 ∧ (0 : Int) < 3 ∧
    pythonInt "0" = some 0 ∧ (0 : Int) ≤ 0 ∧
    ((∃ s1, update_cart 1 1 (some "3") c7State = .ok s1 ∧
      (∃ x ∈ s1.cartItems, x.id = 1) ∧
      (∀ x ∈ s1.cartItems, x.id = 1 → x.quantity = 3) ∧
      (∀ x ∈ c7State.cartItems, x.id ≠ 1 → x ∈ s1.cartItems) ∧
      s1.cartItems.length = c7State.cartItems.length) ∧
    (∃ s2, update_cart 1 1 (some "0") c7State = .ok s2 ∧
      (∀ x ∈ s2.cartItems, x.id ≠ 1) ∧
      (∀ x ∈ c7State.cartItems, x.id ≠ 1 → x ∈ s2.cartItems))) :=
  ⟨by decide, by decide, rfl, by decide, rfl, by decide,
   update_cart_owner 1 1 c7State
     { id := 1, user_id := 1, product_id := 2, quantity := 9 }
     "3" "0" 3 0 (by decide) (by decide) rfl (by decide) rfl (by decide)⟩

/-- C8 counterexample: the claim says any input that does not coerce to a
positive integer makes add fail with a ValidationError. The form value "-5"
coerces to the non-positive integer -5 and yet the operation succeeds,
inserting a CartItem with quantity -5. -/
theorem add_to_cart_negative_accepted :
    pythonInt "-5" = some (-5) ∧
    add_to_cart 1 1 (some "-5") emptyDB =
      .ok { emptyDB with
            cartItems := [{ id := 1, user_id := 1, product_id := 1, quantity := -5 }],
            nextCartItemId := 2 } :=
  ⟨rfl, rfl⟩

/-- C8 (amended): a missing quantity field defaults to 1 (here: inserts a
fresh row with quantity 1); a field that does not parse as an integer makes
the request fail with the unhandled-ValueError 500 and writes nothing; a
field that parses to ANY integer — positive or not — is accepted and the
operation succeeds. -/
theorem add_to_cart_quantity_handling (u p : Nat) (s : DBState)
    (str1 str2 : String) (q : Int)
    (hd : s.cartItems.find? (fun it => it.user_id == u && it.product_id == p) = none)
    (h1 : pythonInt str1 = none)
    (h2 : pythonInt str2 = some q) :
    (∃ s0, add_to_cart u p none s = .ok s0 ∧
       ∃ x ∈ s0.cartItems, x.user_id = u ∧ x.product_id = p ∧ x.quantity = 1) ∧
    (add_to_cart u p (some str1) s = .error .valueError ∧
     resultState (add_to_cart u p (some str1) s) s = s) ∧
    (∃ s0, add_to_cart u p (some str2) s = .ok s0) := by
  refine ⟨⟨addToCartCore u p 1 s, rfl, ?_⟩, ⟨?_, ?_⟩, ?_⟩
  · have e1 : addToCartCore u p 1 s =
        { s with
          cartItems := s.cartItems ++
            [{ id := s.nextCartItemId, user_id := u, product_id := p, quantity := 1 }],
          nextCartItemId := s.nextCartItemId + 1 } := by
      unfold addToCartCore
      rw [hd]
    rw [e1]
    exact ⟨{ id := s.nextCartItemId, user_id := u, product_id := p, quantity := 1 },
      List.mem_append_right _ (List.mem_singleton.mpr rfl), rfl, rfl, rfl⟩
  · unfold add_to_cart
    simp [parseFormQuantity, h1]
  · have : add_to_cart u p (some str1) s = .error .valueError := by
      unfold add_to_cart
      simp [parseFormQuantity, h1]
    rw [this]; rfl
  · refine ⟨addToCartCore u p q s, ?_⟩
    unfold add_to_cart
    simp [parseFormQuantity, h2]

theorem add_to_cart_quantity_handling_witness :
    emptyDB.cartItems.find? (fun it => it.user_id == 1 && it.product_id == 1) = none ∧
    pythonInt "abc" = none ∧
    pythonInt "-7" = some (-7) ∧
    ((∃ s0, add_to_cart 1 1 none emptyDB = .ok s0 ∧
       ∃ x ∈ s0.cartItems, x.user_id = 1 ∧ x.product_id = 1 ∧ x.quantity = 1) ∧
    (add_to_cart 1 1 (some "abc") emptyDB = .error .valueError ∧
     resultState (add_to_cart 1 1 (some "abc") emptyDB) emptyDB = emptyDB) ∧
    (∃ s0, add_to_cart 1 1 (some "-7") emptyDB = .ok s0)) :=
  ⟨by decide, rfl, rfl,
   add_to_cart_quantity_handling 1 1 emptyDB "abc" "-7" (-7) (by decide) rfl rfl⟩

/-- C9: registering a username that already exists fails with the conflict
error before anything is inserted: the user table is unchanged. -/
theorem register_duplicate_username (un em pw : String) (s : DBState)
    (h : s.users.any (fun x => x.username == un) = true) :
    register un em pw s = .error .conflict ∧
    (resultState (register un em pw s) s).users = s.users := by
  have h1 : register un em pw s = .error .conflict := by
    unfold register
    simp [h]
  exact ⟨h1, by rw [h1]; rfl⟩

/-- C6: updating a cart item that exists but belongs to another user is
rejected with the 403 (the explicit ownership check at src/app.py line 142)
whatever the submitted quantity — the check runs before the form value is
even parsed — and nothing is written: the row is neither modified nor
deleted. -/
theorem update_cart_non_owner (u itemId : Nat) (form : Option String)
    (s : DBState) (it : CartItem)
    (hfind : s.cartItems.find? (fun x => x.id == itemId) = some it)
    (hown : it.user_id ≠ u) :
    update_cart u itemId form s = .error .unauthorized ∧
    resultState (update_cart u itemId form s) s = s := by
  have h1 : update_cart u itemId form s = .error .unauthorized := by
    unfold update_cart
    rw [hfind]
    simp [hown]
  exact ⟨h1, by rw [h1]; rfl⟩

theorem update_cart_non_owner_witness :
    c6State.cartItems.find? (fun x => x.id == 5) =
      some { id := 5, user_id := 7, product_id := 3, quantity := 4 } ∧
    ({ id := 5, user_id := 7, product_id := 3, quantity := 4 } : CartItem).user_id ≠ 1 ∧
    (update_cart 1 5 (some "2") c6State = .error .unauthorized ∧
     resultState (update_cart 1 5 (some "2") c6State) c6State = c6State) :=
  ⟨by decide, by decide,
   update_cart_non_owner 1 5 (some "2") c6State
     { id := 5, user_id := 7, product_id := 3, quantity := 4 } (by decide) (by decide)⟩

/-- C10: checkout for user u touches no row of another user v: both on the
state a run of `checkout` actually leaves behind (`resultState`) and on the
committed state a successful run would produce (`checkoutCommit`), v's cart
rows and v's orders are exactly those of the input state — the handler only
filters, deletes and creates rows scoped to u. -/
theorem checkout_other_users_frame (u v : Nat) (s : DBState) (hvu : v ≠ u)
    (t : Rat) (committed : List OrderItem) :
    (resultState (checkout u s) s).cartItems.filter (fun it => it.user_id == v) =
      s.cartItems.filter (fun it => it.user_id == v) ∧
    (resultState (checkout u s) s).orders.filter (fun o => o.user_id == v) =
      s.orders.filter (fun o => o.user_id == v) ∧
    (checkoutCommit u t committed s).cartItems.filter (fun it => it.user_id == v) =
      s.cartItems.filter (fun it => it.user_id == v) ∧
    (checkoutCommit u t committed s).orders.filter (fun o => o.user_id == v) =
      s.orders.filter (fun o => o.user_id == v) := by
  have hres : resultState (checkout u s) s = s := by
    rcases checkout_never_commits u s with h | h <;> (rw [h]; rfl)
  refine ⟨by rw [hres], by rw [hres], ?_, ?_⟩
  · show (s.cartItems.filter (fun it => it.user_id != u)).filter
        (fun it => it.user_id == v) = s.cartItems.filter (fun it => it.user_id == v)
    rw [List.filter_filter]
    apply List.filter_congr
    intro x _
    cases h : (x.user_id == v) with
    | false => simp [h]
    | true =>
        have hxv : x.user_id = v := by simpa using h
        have hxu : (x.user_id != u) = true := by simp [hxv, hvu]
        simp [h, hxu]
  · have huv : ((u : Nat) == v) = false := by simp [Ne.symm hvu]
    simp only [checkoutCommit]
    simp [List.filter_append, huv]

theorem checkout_other_users_frame_witness :
    (2 : Nat) ≠ 1 ∧
    ((resultState (checkout 1 c10State) c10State).cartItems.filter
        (fun it => it.user_id == 2) =
      c10State.cartItems.filter (fun it => it.user_id == 2) ∧
    (resultState (checkout 1 c10State) c10State).orders.filter
        (fun o => o.user_id == 2) =
      c10State.orders.filter (fun o => o.user_id == 2) ∧
    (checkoutCommit 1 0 [] c10State).cartItems.filter (fun it => it.user_id == 2) =
      c10State.cartItems.filter (fun it => it.user_id == 2) ∧
    (checkoutCommit 1 0 [] c10State).orders.filter (fun o => o.user_id == 2) =
      c10State.orders.filter (fun o => o.user_id == 2)) :=
  ⟨by decide, checkout_other_users_frame 1 2 c10State (by decide) 0 []⟩

theorem register_duplicate_username_witness :
    c9State.users.any (fun x => x.username == "alice") = true ∧
    (register "alice" "b@y.com" "pw2" c9State = .error .conflict ∧
     (resultState (register "alice" "b@y.com" "pw2" c9State) c9State).users =
       c9State.users) :=
  ⟨by decide, register_duplicate_username "alice" "b@y.com" "pw2" c9State (by decide)⟩

end Site3
